import Mathlib

set_option maxRecDepth 100000

/-!
Verification of the StakeholderGPT orchestration core: a shallow embedding
of src/main.py (the `grill` pipeline and its helpers), with one theorem per
specification claim.

Modelling decisions:
* An `Agent` keeps the persona data the pipeline depends on (role, goal,
  backstory).  The verbose flag and the llm model identifier are external
  configuration consulted only by the black-box generation capability and
  are not part of the embedded data model.
* Python f-strings are translated as explicit string concatenations of
  their literal parts with the interpolated variables.  Apostrophes inside
  the literals are written with the \x27 escape.
* The external text-generation capability (the LLM behind crewai) is an
  injected function `gen : String → Option String`; `none` models a
  transport or model error for that prompt.
* `Crew.kickoff` with the default sequential process is modelled by
  `kickoff`: it runs the tasks in list order, sends the description of each
  task to the generation capability, records the call in a trace, and
  aborts at the first failing task (an exception in the Python code
  propagates and ends the run), reporting the role of the failing agent.
* The Python `str.strip()` call (used only in the emptiness check of
  `grill`) is modelled by `pyStrip` over the ASCII whitespace characters.
-/

namespace StakeholderGPT

/-- A stakeholder persona, as constructed by `create_stakeholders`
(src/main.py:22-58). -/
structure Agent where
  role : String
  goal : String
  backstory : String
deriving DecidableEq, Repr

/-- A crewai task: an instruction prompt, the expected-output note, and the
agent that executes it (src/main.py:64-142). -/
structure Task where
  description : String
  expected_output : String
  agent : Agent
deriving DecidableEq, Repr

/-- The CEO persona (src/main.py:25-34). -/
def ceo : Agent :=
  { role := "CEO"
  , goal := "Evaluate roadmap proposals from a business and strategic perspective"
  , backstory := "You are a seasoned CEO who has built multiple successful companies. \n        You care deeply about ROI, market timing, resource allocation, and strategic focus. \n        You ask tough questions about business value and opportunity cost. \n        You\x27re supportive but demanding - you want to see clear thinking." }

/-- The CTO persona (src/main.py:36-45). -/
def cto : Agent :=
  { role := "CTO"
  , goal := "Evaluate roadmap proposals from a technical feasibility and architecture perspective"
  , backstory := "You are an experienced CTO who has scaled systems from startup to enterprise.\n        You care about technical debt, scalability, integration complexity, and team capacity.\n        You ask probing questions about implementation risks and technical trade-offs.\n        You\x27re collaborative but rigorous - you want realistic plans." }

/-- The Head of Design persona (src/main.py:47-56). -/
def designer : Agent :=
  { role := "Head of Design"
  , goal := "Evaluate roadmap proposals from a user experience and validation perspective"
  , backstory := "You are a user-obsessed design leader who has shipped products used by millions.\n        You care about user problems, validation, usability, and design coherence.\n        You ask challenging questions about user research and experience trade-offs.\n        You\x27re empathetic but principled - you advocate for users." }

/-- Registry function `create_stakeholders` (src/main.py:22-58): the three
personas in registry order. -/
def create_stakeholders : Agent × Agent × Agent := (ceo, cto, designer)

/-- Fixed part of the CEO task template before the interpolated pitch
(src/main.py:65-67). -/
def ceo_task_pre : String :=
  "Review this roadmap pitch and ask 2-3 tough business questions:\n\nPITCH:\n"

/-- Fixed part of the CEO task template after the interpolated pitch
(src/main.py:69-77). -/
def ceo_task_post : String :=
  "\n\nAsk questions a CEO would ask:\n- What\x27s the ROI and how did you calculate it?\n- Why now? What\x27s the market timing?\n- What are we choosing NOT to do by pursuing this?\n- How does this align with our strategic priorities?\n- What\x27s the competitive risk if we don\x27t do this?\n\nBe direct but constructive. Challenge assumptions."

/-- Fixed part of the CTO task template before the interpolated pitch
(src/main.py:83-85). -/
def cto_task_pre : String :=
  "Review this roadmap pitch and ask 2-3 tough technical questions:\n\nPITCH:\n"

/-- Fixed part of the CTO task template after the interpolated pitch
(src/main.py:87-95). -/
def cto_task_post : String :=
  "\n\nAsk questions a CTO would ask:\n- How does this scale? What\x27s the architecture?\n- What technical debt are we taking on?\n- What are the integration risks with existing systems?\n- Do we have the team capacity and skills?\n- What\x27s the rollback plan if it fails?\n\nBe thorough but fair. Identify real technical risks."

/-- Fixed part of the designer task template before the interpolated pitch
(src/main.py:101-103). -/
def designer_task_pre : String :=
  "Review this roadmap pitch and ask 2-3 tough user experience questions:\n\nPITCH:\n"

/-- Fixed part of the designer task template after the interpolated pitch
(src/main.py:105-113). -/
def designer_task_post : String :=
  "\n\nAsk questions a Head of Design would ask:\n- What specific user problem does this solve?\n- How have we validated this with users?\n- What\x27s the UX complexity for end users?\n- How does this fit with our existing product experience?\n- What are users asking for that we\x27re ignoring?\n\nBe user-focused but practical. Advocate for the customer."

/-- The CEO grilling task (src/main.py:64-80). -/
def ceo_task (pitch : String) : Task :=
  { description := ceo_task_pre ++ pitch ++ ceo_task_post
  , expected_output := "2-3 tough business-focused questions about the roadmap pitch"
  , agent := ceo }

/-- The CTO grilling task (src/main.py:82-98). -/
def cto_task (pitch : String) : Task :=
  { description := cto_task_pre ++ pitch ++ cto_task_post
  , expected_output := "2-3 tough technical questions about the roadmap pitch"
  , agent := cto }

/-- The designer grilling task (src/main.py:100-116). -/
def designer_task (pitch : String) : Task :=
  { description := designer_task_pre ++ pitch ++ designer_task_post
  , expected_output := "2-3 tough user experience questions about the roadmap pitch"
  , agent := designer }

/-- Task builder `create_grilling_tasks` (src/main.py:61-118): one task per
persona, in registry order. -/
def create_grilling_tasks (pitch : String) : List Task :=
  [ceo_task pitch, cto_task pitch, designer_task pitch]

/-- Fixed part of the evaluation task template before the interpolated
pitch (src/main.py:125-127). -/
def eval_task_pre : String :=
  "Based on the stakeholder questions raised about this pitch, provide a readiness assessment:\n\nORIGINAL PITCH:\n"

/-- Fixed part of the evaluation task template between the interpolated
pitch and the interpolated questions (src/main.py:128-130). -/
def eval_task_mid : String :=
  "\n\nSTAKEHOLDER QUESTIONS:\n"

/-- Fixed part of the evaluation task template after the interpolated
questions (src/main.py:132-139). -/
def eval_task_post : String :=
  "\n\nProvide:\n1. **Readiness Score**: 1-10 (10 = ready to present to real stakeholders)\n2. **Strengths**: What\x27s strong about this pitch?\n3. **Gaps**: What needs more work before the real meeting?\n4. **Suggested Improvements**: 3 specific things to add or clarify\n\nBe honest and helpful. The goal is to make them better prepared."

/-- Task builder `create_evaluation_task` (src/main.py:121-142). -/
def create_evaluation_task (pitch : String) (questions : String) (a : Agent) : Task :=
  { description :=
      eval_task_pre ++ pitch ++ eval_task_mid ++ questions ++ eval_task_post
  , expected_output :=
      "A readiness assessment with score, strengths, gaps, and improvement suggestions"
  , agent := a }

/-- The composite questions f-string built at src/main.py:202-208: a leading
newline, the three labeled blocks separated by blank lines, then a trailing
newline.  The labels CEO, CTO, Designer are hard-coded literals there. -/
def all_questions (q0 q1 q2 : String) : String :=
  "\nCEO: " ++ q0 ++ "\n\nCTO: " ++ q1 ++ "\n\nDesigner: " ++ q2 ++ "\n"

/-- The Aggregator exactly as the spec words it (section 4.3): for each
entry in registry order, emit a labeled block "Role: QuestionSet text"
separated by blank lines, and the empty sequence yields an empty
composite. -/
def aggregate_spec : List (String × String) → String
  | [] => ""
  | [e] => e.1 ++ ": " ++ e.2
  | e :: rest => e.1 ++ ": " ++ e.2 ++ "\n\n" ++ aggregate_spec rest

/-- The list generalisation of the composite actually built at
src/main.py:202-208: the labeled blocks separated by blank lines, wrapped
in the leading and trailing newline of the f-string.  `all_questions` is
this function at the three fixed entries (`all_questions_eq_aggregate`). -/
def aggregate (entries : List (String × String)) : String :=
  "\n" ++ aggregate_spec entries ++ "\n"

/-- ASCII whitespace recognised by the Python `str.strip()` (Python also
strips some further Unicode space characters, which no claim exercises). -/
def pyIsSpace (c : Char) : Bool :=
  c = ' ' || c = '\t' || c = '\n' || c = '\r' || c = '\x0b' || c = '\x0c'

/-- Model of `pitch_text.strip()` as used at src/main.py:163: drop
whitespace from both ends. -/
def pyStrip (s : String) : String :=
  ⟨((s.data.dropWhile pyIsSpace).reverse.dropWhile pyIsSpace).reverse⟩

/-- Failure taxonomy of the run (spec section 7): rejected input, or a
generation failure naming the role of the failing agent. -/
inductive GrillError where
  | InvalidInput : GrillError
  | GenerationFailure : String → GrillError
deriving DecidableEq, Repr

/-- The artifacts of a successful run: the three question sets, the
composite questions text, and the verbatim assessment text. -/
structure RunResult where
  ceo_questions : String
  cto_questions : String
  designer_questions : String
  composite : String
  assessment : String
deriving DecidableEq, Repr

/-- One call to the text-generation capability, tagged by stage, carrying
the executing agent and the prompt sent. -/
inductive StageCall where
  | generateQuestions : Agent → String → StageCall
  | evaluate : Agent → String → StageCall
deriving DecidableEq, Repr

/-- The prompt sent by a stage call. -/
def StageCall.prompt : StageCall → String
  | .generateQuestions _ p => p
  | .evaluate _ p => p

/-- Whether a stage call is an evaluation-stage call. -/
def StageCall.isEvaluate : StageCall → Bool
  | .generateQuestions _ _ => false
  | .evaluate _ _ => true

/-- Model of `Crew.kickoff` with the sequential process (src/main.py:183-189
and 214-215): run the tasks in order, sending each description to the
generation capability; abort at the first failure, reporting the role of
the failing agent.  Returns the task outputs in task order and the trace
of generation calls made. -/
def kickoff (tag : Agent → String → StageCall) (gen : String → Option String) :
    List Task → Except String (List String) × List StageCall
  | [] => (.ok [], [])
  | t :: ts =>
    match gen t.description with
    | none => (.error t.agent.role, [tag t.agent t.description])
    | some res =>
      match kickoff tag gen ts with
      | (rest, calls) =>
        (rest.map (fun outs => res :: outs), tag t.agent t.description :: calls)

/-- The orchestration core of `grill` (src/main.py:145-223), with the
console rendering stripped: validate the pitch, run the three grilling
tasks, build the composite questions text, run the evaluation task with
the CEO agent, and return the artifacts together with the trace of
generation calls. -/
def grill (gen : String → Option String) (pitch_text : String) :
    Except GrillError RunResult × List StageCall :=
  if (pyStrip pitch_text).isEmpty then
    (.error .InvalidInput, [])
  else
    match kickoff StageCall.generateQuestions gen (create_grilling_tasks pitch_text) with
    | (.error r, calls) => (.error (.GenerationFailure r), calls)
    | (.ok outs, calls) =>
      match outs with
      | [q0, q1, q2] =>
        let questions := all_questions q0 q1 q2
        let eval_task := create_evaluation_task pitch_text questions ceo
        match kickoff StageCall.evaluate gen [eval_task] with
        | (.error r, ecalls) => (.error (.GenerationFailure r), calls ++ ecalls)
        | (.ok [a], ecalls) =>
          (.ok ⟨q0, q1, q2, questions, a⟩, calls ++ ecalls)
        | (.ok _, ecalls) => (.error (.GenerationFailure "evaluation"), calls ++ ecalls)
      | _ => (.error (.GenerationFailure "question generation"), calls)

/-- Stub pitch text of the end-to-end scenario in spec section 8. -/
def stub_pitch : String := "Ship feature X in Q2 with 2 engineers"

/-- Stub evaluation text of the end-to-end scenario in spec section 8. -/
def stub_assessment : String := "Score: 7\nStrengths: ...\nGaps: ...\nImprovements: ..."

/-- Stub generation capability of the end-to-end scenario in spec section 8:
fixed strings for the three persona prompts, a fixed assessment text for
the evaluation prompt. -/
def stub_gen (s : String) : Option String :=
  if s = (ceo_task stub_pitch).description then some "CEO-Q"
  else if s = (cto_task stub_pitch).description then some "CTO-Q"
  else if s = (designer_task stub_pitch).description then some "Designer-Q"
  else some stub_assessment

lemma ceo_task_agent (p : String) : (ceo_task p).agent = ceo := rfl

lemma cto_task_agent (p : String) : (cto_task p).agent = cto := rfl

lemma designer_task_agent (p : String) : (designer_task p).agent = designer := rfl

lemma create_evaluation_task_agent (p q : String) (a : Agent) :
    (create_evaluation_task p q a).agent = a := rfl

lemma ceo_role : ceo.role = "CEO" := rfl

lemma cto_role : cto.role = "CTO" := rfl

lemma designer_role : designer.role = "Head of Design" := rfl

lemma string_data_append (a b : String) : (a ++ b).data = a.data ++ b.data := rfl

lemma merge3 (a b c : String) (h : a ++ b = c) (x : String) : a ++ (b ++ x) = c ++ x := by
  rw [← String.append_assoc, h]

/-- The composite of src/main.py:202-208 is the list aggregation at the
three fixed labeled entries. -/
lemma all_questions_eq_aggregate (a b c : String) :
    all_questions a b c = aggregate [("CEO", a), ("CTO", b), ("Designer", c)] := by
  simp only [aggregate, aggregate_spec, all_questions]
  simp only [String.append_assoc]
  rw [merge3 "CEO" ": " "CEO: " rfl,
      merge3 "CTO" ": " "CTO: " rfl,
      merge3 "Designer" ": " "Designer: " rfl,
      merge3 "\n" "CEO: " "\nCEO: " rfl,
      merge3 "\n\n" "CTO: " "\n\nCTO: " rfl,
      merge3 "\n\n" "Designer: " "\n\nDesigner: " rfl]

/-- A string all of whose characters are whitespace strips to the empty
string. -/
lemma pyStrip_all_space {s : String} (h : ∀ c ∈ s.data, pyIsSpace c = true) :
    pyStrip s = "" := by
  unfold pyStrip
  rw [List.dropWhile_eq_nil_iff.mpr h]
  rfl

/-- Exhaustive case analysis of one `grill` run: rejected input, a failure
at one of the four generation calls, or full success; in each case the
result and the exact call trace. -/
lemma grill_cases (gen : String → Option String) (pitch : String) :
    ((pyStrip pitch).isEmpty = true ∧
        grill gen pitch = (.error .InvalidInput, []))
  ∨ ((pyStrip pitch).isEmpty = false ∧
      ((gen (ceo_task pitch).description = none ∧
          grill gen pitch = (.error (.GenerationFailure "CEO"),
            [.generateQuestions ceo (ceo_task pitch).description]))
       ∨ (∃ q0, gen (ceo_task pitch).description = some q0 ∧
          ((gen (cto_task pitch).description = none ∧
              grill gen pitch = (.error (.GenerationFailure "CTO"),
                [.generateQuestions ceo (ceo_task pitch).description,
                 .generateQuestions cto (cto_task pitch).description]))
           ∨ (∃ q1, gen (cto_task pitch).description = some q1 ∧
              ((gen (designer_task pitch).description = none ∧
                  grill gen pitch = (.error (.GenerationFailure "Head of Design"),
                    [.generateQuestions ceo (ceo_task pitch).description,
                     .generateQuestions cto (cto_task pitch).description,
                     .generateQuestions designer (designer_task pitch).description]))
               ∨ (∃ q2, gen (designer_task pitch).description = some q2 ∧
                  ((gen (create_evaluation_task pitch (all_questions q0 q1 q2) ceo).description = none ∧
                      grill gen pitch = (.error (.GenerationFailure "CEO"),
                        [.generateQuestions ceo (ceo_task pitch).description,
                         .generateQuestions cto (cto_task pitch).description,
                         .generateQuestions designer (designer_task pitch).description,
                         .evaluate ceo (create_evaluation_task pitch (all_questions q0 q1 q2) ceo).description]))
                   ∨ (∃ a, gen (create_evaluation_task pitch (all_questions q0 q1 q2) ceo).description = some a ∧
                      grill gen pitch = (.ok ⟨q0, q1, q2, all_questions q0 q1 q2, a⟩,
                        [.generateQuestions ceo (ceo_task pitch).description,
                         .generateQuestions cto (cto_task pitch).description,
                         .generateQuestions designer (designer_task pitch).description,
                         .evaluate ceo (create_evaluation_task pitch (all_questions q0 q1 q2) ceo).description])))))))))) := by
  by_cases hs : (pyStrip pitch).isEmpty = true
  · exact Or.inl ⟨hs, by simp [grill, hs]⟩
  · have hs' : (pyStrip pitch).isEmpty = false := by simpa using hs
    refine Or.inr ⟨hs', ?_⟩
    cases h0 : gen (ceo_task pitch).description with
    | none =>
      exact Or.inl ⟨rfl, by
        simp [grill, create_grilling_tasks, kickoff, hs', h0, ceo_task_agent, ceo_role]⟩
    | some q0 =>
      refine Or.inr ⟨q0, rfl, ?_⟩
      cases h1 : gen (cto_task pitch).description with
      | none =>
        exact Or.inl ⟨rfl, by
          simp [grill, create_grilling_tasks, kickoff, Except.map, hs', h0, h1,
            ceo_task_agent, cto_task_agent, cto_role]⟩
      | some q1 =>
        refine Or.inr ⟨q1, rfl, ?_⟩
        cases h2 : gen (designer_task pitch).description with
        | none =>
          exact Or.inl ⟨rfl, by
            simp [grill, create_grilling_tasks, kickoff, Except.map, hs', h0, h1, h2,
              ceo_task_agent, cto_task_agent, designer_task_agent, designer_role]⟩
        | some q2 =>
          refine Or.inr ⟨q2, rfl, ?_⟩
          cases he : gen (create_evaluation_task pitch (all_questions q0 q1 q2) ceo).description with
          | none =>
            exact Or.inl ⟨rfl, by
              simp [grill, create_grilling_tasks, kickoff, Except.map, hs', h0, h1, h2, he,
                ceo_task_agent, cto_task_agent, designer_task_agent,
                create_evaluation_task_agent, ceo_role]⟩
          | some a =>
            exact Or.inr ⟨a, rfl, by
              simp [grill, create_grilling_tasks, kickoff, Except.map, hs', h0, h1, h2, he,
                ceo_task_agent, cto_task_agent, designer_task_agent,
                create_evaluation_task_agent, ceo_role]⟩

/-- Claim C1: for every non-empty pitch, when the generation capability
answers every prompt, the run makes exactly three question-generation
calls, one per persona in registry order (CEO, CTO, Head of Design), all
before the single evaluation call, and the evaluation call happens exactly
once. -/
theorem generation_precedes_evaluation (gen : String → Option String) (pitch : String)
    (hne : (pyStrip pitch).isEmpty = false)
    (hok : ∀ s, (gen s).isSome = true) :
    ∃ p0 p1 p2 pe, (grill gen pitch).2 =
      [StageCall.generateQuestions ceo p0, StageCall.generateQuestions cto p1,
       StageCall.generateQuestions designer p2, StageCall.evaluate ceo pe] := by
  rcases grill_cases gen pitch with ⟨h, _⟩ | ⟨_, htail⟩
  · rw [hne] at h; cases h
  · rcases htail with ⟨h0, _⟩ | ⟨q0, h0, htail⟩
    · have hx := hok (ceo_task pitch).description; rw [h0] at hx; cases hx
    · rcases htail with ⟨h1, _⟩ | ⟨q1, h1, htail⟩
      · have hx := hok (cto_task pitch).description; rw [h1] at hx; cases hx
      · rcases htail with ⟨h2, _⟩ | ⟨q2, h2, htail⟩
        · have hx := hok (designer_task pitch).description; rw [h2] at hx; cases hx
        · rcases htail with ⟨he, _⟩ | ⟨a, he, hg⟩
          · have hx := hok (create_evaluation_task pitch (all_questions q0 q1 q2) ceo).description
            rw [he] at hx; cases hx
          · exact ⟨_, _, _, _, by rw [hg]⟩

/-- Witness for C1 at a concrete pitch and a total stub capability. -/
theorem generation_precedes_evaluation_witness :
    ∃ p0 p1 p2 pe, (grill (fun _ => some "ok") "x").2 =
      [StageCall.generateQuestions ceo p0, StageCall.generateQuestions cto p1,
       StageCall.generateQuestions designer p2, StageCall.evaluate ceo pe] :=
  generation_precedes_evaluation (fun _ => some "ok") "x" (by decide) (fun _ => rfl)

/-- Claim C2: for every pitch that is empty or consists only of whitespace,
the run is rejected with InvalidInput and no generation call at all is
made: the call trace is empty, so neither persona generation nor
evaluation occurs. -/
theorem empty_pitch_rejected (gen : String → Option String) (pitch : String)
    (h : ∀ c ∈ pitch.data, pyIsSpace c = true) :
    grill gen pitch = (.error .InvalidInput, []) := by
  have hs : pyStrip pitch = "" := pyStrip_all_space h
  have hb : (pyStrip pitch).isEmpty = true := by rw [hs]; rfl
  simp [grill, hb]

/-- Witness for C2 at a whitespace-only pitch. -/
theorem empty_pitch_rejected_witness :
    grill (fun _ => some "irrelevant") "  \t\n " = (.error .InvalidInput, []) :=
  empty_pitch_rejected _ _ (by decide)

/-- Claim C3: if any of the three persona generation calls fails, the run
ends in a failure result and no evaluation call appears in the trace, so
no partial result is surfaced as success. -/
theorem persona_failure_aborts (gen : String → Option String) (pitch : String)
    (hfail : gen (ceo_task pitch).description = none ∨
             gen (cto_task pitch).description = none ∨
             gen (designer_task pitch).description = none) :
    (∃ e, (grill gen pitch).1 = Except.error e) ∧
    ((grill gen pitch).2.all fun c => !(c.isEvaluate)) = true := by
  rcases grill_cases gen pitch with ⟨_, hg⟩ | ⟨_, htail⟩
  · exact ⟨⟨.InvalidInput, by rw [hg]⟩, by rw [hg]; rfl⟩
  · rcases htail with ⟨h0, hg⟩ | ⟨q0, h0, htail⟩
    · exact ⟨⟨_, by rw [hg]⟩, by rw [hg]; rfl⟩
    · rcases htail with ⟨h1, hg⟩ | ⟨q1, h1, htail⟩
      · exact ⟨⟨_, by rw [hg]⟩, by rw [hg]; rfl⟩
      · rcases htail with ⟨h2, hg⟩ | ⟨q2, h2, htail⟩
        · exact ⟨⟨_, by rw [hg]⟩, by rw [hg]; rfl⟩
        · rcases hfail with hf | hf | hf
          · rw [h0] at hf; cases hf
          · rw [h1] at hf; cases hf
          · rw [h2] at hf; cases hf

/-- Witness for C3 at a capability that fails every prompt. -/
theorem persona_failure_aborts_witness :
    (∃ e, (grill (fun _ => none) "x").1 = Except.error e) ∧
    ((grill (fun _ => none) "x").2.all fun c => !(c.isEvaluate)) = true :=
  persona_failure_aborts _ _ (Or.inl rfl)

/-- Counterexample for C4: the composite text is not the bare sequence of
labeled blocks built from the role identifiers of the registry personas:
it is wrapped in a leading and trailing newline, and the third block is
labeled Designer although the role identifier of that persona is Head of
Design. -/
theorem composite_not_bare_role_blocks :
    all_questions "a" "b" "c" ≠
      aggregate_spec [(ceo.role, "a"), (cto.role, "b"), (designer.role, "c")] := by
  decide

/-- Claim C4 as amended: the composite questions text is the three labeled
blocks in registry order separated by blank lines, with the hard-coded
labels CEO, CTO, Designer (not the Head of Design role identifier), and
wrapped in one leading and one trailing newline; nothing else is added and
no reordering happens. -/
theorem composite_wrapped_blocks (q0 q1 q2 : String) :
    all_questions q0 q1 q2 =
      "\n" ++ aggregate_spec [("CEO", q0), ("CTO", q1), ("Designer", q2)] ++ "\n" :=
  all_questions_eq_aggregate q0 q1 q2

/-- Claim C5: end-to-end run on the stub scenario of spec section 8: the
result is success, the transcript composite holds the three labeled
blocks in CEO, CTO, Designer order, and the assessment is the stub
evaluation text verbatim, unparsed. -/
theorem end_to_end_stub_run :
    (grill stub_gen stub_pitch).1 =
      Except.ok ⟨"CEO-Q", "CTO-Q", "Designer-Q",
        "\nCEO: CEO-Q\n\nCTO: CTO-Q\n\nDesigner: Designer-Q\n",
        "Score: 7\nStrengths: ...\nGaps: ...\nImprovements: ..."⟩ := by rfl

/-- Counterexample for C6: the aggregation of the empty sequence is not the
empty string: the wrapper newlines of the composite template remain. -/
theorem aggregate_empty_ne_empty_string : aggregate [] ≠ "" := by decide

/-- Claim C6 as amended: the aggregate operation is deterministic (equal
input sequences give equal composite text), and applied to the empty
sequence it yields the two-newline wrapper text, not an error and not the
empty string. -/
theorem aggregate_deterministic_empty_blank :
    (∀ l1 l2 : List (String × String), l1 = l2 → aggregate l1 = aggregate l2) ∧
    aggregate [] = "\n\n" :=
  ⟨fun l1 l2 h => by rw [h], rfl⟩

/-- Witness for the amended C6 at a concrete entry list. -/
theorem aggregate_deterministic_empty_blank_witness :
    aggregate [("CEO", "q")] = aggregate [("CEO", "q")] ∧ aggregate [] = "\n\n" :=
  ⟨aggregate_deterministic_empty_blank.1 _ _ rfl, aggregate_deterministic_empty_blank.2⟩

/-- Claim C7: the pipeline is deterministic: two runs with the same pitch
text and the same deterministic generation capability produce the same
result (transcript, composite, assessment) and the same call trace. -/
theorem pipeline_deterministic (gen1 gen2 : String → Option String) (p1 p2 : String)
    (hg : gen1 = gen2) (hp : p1 = p2) :
    grill gen1 p1 = grill gen2 p2 := by rw [hg, hp]

/-- Witness for C7 at a concrete capability and pitch. -/
theorem pipeline_deterministic_witness :
    grill (fun _ => some "q") "pitch" = grill (fun _ => some "q") "pitch" :=
  pipeline_deterministic _ _ _ _ rfl rfl

/-- Claim C8: each persona prompt is the fixed template of that persona
with the pitch substituted verbatim, the fixed parts carry the
role-specific guidance angles (ROI, market timing and opportunity cost for
the CEO; scaling, technical debt and integration risks for the CTO; user
validation and UX complexity for the designer) and ask for 2-3 questions
in that persona voice; the evaluation prompt embeds both the original
pitch and the full composite questions text. -/
theorem prompt_templates_embed_pitch (pitch questions : String) :
    ((ceo_task pitch).description = ceo_task_pre ++ pitch ++ ceo_task_post
      ∧ (cto_task pitch).description = cto_task_pre ++ pitch ++ cto_task_post
      ∧ (designer_task pitch).description = designer_task_pre ++ pitch ++ designer_task_post
      ∧ (create_evaluation_task pitch questions ceo).description =
          eval_task_pre ++ pitch ++ eval_task_mid ++ questions ++ eval_task_post)
    ∧ ("ROI".data <:+: ceo_task_post.data
      ∧ "market timing".data <:+: ceo_task_post.data
      ∧ "choosing NOT to do".data <:+: ceo_task_post.data
      ∧ "2-3 tough business questions".data <:+: ceo_task_pre.data)
    ∧ ("scale".data <:+: cto_task_post.data
      ∧ "technical debt".data <:+: cto_task_post.data
      ∧ "integration risks".data <:+: cto_task_post.data
      ∧ "2-3 tough technical questions".data <:+: cto_task_pre.data)
    ∧ ("validated this with users".data <:+: designer_task_post.data
      ∧ "UX complexity".data <:+: designer_task_post.data
      ∧ "2-3 tough user experience questions".data <:+: designer_task_pre.data) := by
  exact ⟨⟨rfl, rfl, rfl, rfl⟩,
    ⟨by decide, by decide, by decide, by decide⟩,
    ⟨by decide, by decide, by decide, by decide⟩,
    ⟨by decide, by decide, by decide⟩⟩

/-- Claim C9 (implicit): every evaluation call of a run is executed by the
CEO agent, the same agent value that executed the CEO question-generation
call of that run, so the assessment is produced under the CEO behavioral
profile rather than by a neutral evaluator. -/
theorem evaluation_by_ceo_agent (gen : String → Option String) (pitch : String)
    (a : Agent) (p : String)
    (h : StageCall.evaluate a p ∈ (grill gen pitch).2) :
    a = ceo ∧ ∃ p0, StageCall.generateQuestions a p0 ∈ (grill gen pitch).2 := by
  rcases grill_cases gen pitch with ⟨_, hg⟩ | ⟨_, htail⟩
  · rw [hg] at h; simp at h
  · rcases htail with ⟨_, hg⟩ | ⟨q0, h0, htail⟩
    · rw [hg] at h; simp at h
    · rcases htail with ⟨_, hg⟩ | ⟨q1, h1, htail⟩
      · rw [hg] at h; simp at h
      · rcases htail with ⟨_, hg⟩ | ⟨q2, h2, htail⟩
        · rw [hg] at h; simp at h
        · rcases htail with ⟨he, hg⟩ | ⟨av, he, hg⟩
          · rw [hg] at h; simp at h
            obtain ⟨ha, hp⟩ := h
            subst ha
            exact ⟨rfl, ⟨(ceo_task pitch).description, by rw [hg]; simp⟩⟩
          · rw [hg] at h; simp at h
            obtain ⟨ha, hp⟩ := h
            subst ha
            exact ⟨rfl, ⟨(ceo_task pitch).description, by rw [hg]; simp⟩⟩

/-- Witness for C9 at a concrete successful run. -/
theorem evaluation_by_ceo_agent_witness :
    ceo = ceo ∧ ∃ p0, StageCall.generateQuestions ceo p0 ∈ (grill (fun _ => some "ok") "x").2 :=
  evaluation_by_ceo_agent (fun _ => some "ok") "x" ceo
    (create_evaluation_task "x" (all_questions "ok" "ok" "ok") ceo).description (by decide)

/-- Claim C10 (implicit): trimming is used only for the emptiness check;
every prompt of a run embeds the original untrimmed pitch text verbatim,
as a contiguous substring. -/
theorem untrimmed_pitch_in_prompts (gen : String → Option String) (pitch : String)
    (hne : (pyStrip pitch).isEmpty = false)
    (hok : ∀ s, (gen s).isSome = true) :
    ∀ call ∈ (grill gen pitch).2, pitch.data <:+: call.prompt.data := by
  rcases grill_cases gen pitch with ⟨h, _⟩ | ⟨_, htail⟩
  · rw [hne] at h; cases h
  · rcases htail with ⟨h0, _⟩ | ⟨q0, h0, htail⟩
    · have hx := hok (ceo_task pitch).description; rw [h0] at hx; cases hx
    · rcases htail with ⟨h1, _⟩ | ⟨q1, h1, htail⟩
      · have hx := hok (cto_task pitch).description; rw [h1] at hx; cases hx
      · rcases htail with ⟨h2, _⟩ | ⟨q2, h2, htail⟩
        · have hx := hok (designer_task pitch).description; rw [h2] at hx; cases hx
        · rcases htail with ⟨he, _⟩ | ⟨a, he, hg⟩
          · have hx := hok (create_evaluation_task pitch (all_questions q0 q1 q2) ceo).description
            rw [he] at hx; cases hx
          · rw [hg]
            intro call hc
            simp at hc
            rcases hc with hc | hc | hc | hc <;> subst hc
            · exact ⟨ceo_task_pre.data, ceo_task_post.data, rfl⟩
            · exact ⟨cto_task_pre.data, cto_task_post.data, rfl⟩
            · exact ⟨designer_task_pre.data, designer_task_post.data, rfl⟩
            · refine ⟨eval_task_pre.data,
                (eval_task_mid ++ all_questions q0 q1 q2 ++ eval_task_post).data, ?_⟩
              simp [StageCall.prompt, create_evaluation_task, string_data_append,
                List.append_assoc]

/-- Witness for C10 at a pitch with leading and trailing whitespace. -/
theorem untrimmed_pitch_in_prompts_witness :
    (" hi " : String).data <:+:
      (StageCall.generateQuestions ceo (ceo_task " hi ").description).prompt.data :=
  untrimmed_pitch_in_prompts (fun _ => some "ok") " hi " (by decide) (fun _ => rfl)
    (StageCall.generateQuestions ceo (ceo_task " hi ").description) (by decide)

end StakeholderGPT
